import Mathlib

/-!
Shallow embedding of the SoletAer ROI calculator
(src/src/pages/Index.tsx: the sanitized `RoiCalculator` with its input
helpers `parseNum`, `clampInt`, `clampMin` and the `derived` memo, the
per-field onBlur commits, and the legacy numeric-only `RoiCalculator`
variant later in the same file).

JavaScript numbers are modelled as exact rationals (ℚ); `Math.floor` is
`Int.floor`, `Math.round` is `⌊x + 1/2⌋`, and the `Infinity` used as the
unbounded-payback sentinel is modelled by `Option.none`.  A second
rendering of the same computation over an extended numeric carrier with
the IEEE special values (`JsNum`) appears further down so that
finiteness of the outputs is expressible.
-/

/-- A raw form-field value as the component state holds it: a text value
(modelled as a list of characters), an already-committed numeric value,
or undefined. -/
inductive RawValue where
  | str (s : List Char)
  | num (q : ℚ)
  | undef
deriving DecidableEq

/-- Digits of a decimal literal read as a natural number. -/
def digitsToNat (cs : List Char) : Nat :=
  cs.foldl (fun acc c => 10 * acc + (c.toNat - Char.toNat '0')) 0

/-- An unsigned decimal literal: digits, an optional dot, optional
fraction digits ("1", "1.95", "1.", ".5"); anything else is NaN,
modelled as `none`. -/
def parseUnsigned (cs : List Char) : Option ℚ :=
  let intPart := cs.takeWhile Char.isDigit
  let rest := cs.dropWhile Char.isDigit
  match rest with
  | [] => if intPart.isEmpty then none else some (digitsToNat intPart)
  | '.' :: rest2 =>
    let fracPart := rest2.takeWhile Char.isDigit
    let rest3 := rest2.dropWhile Char.isDigit
    if rest3.isEmpty && !(intPart.isEmpty && fracPart.isEmpty) then
      some ((digitsToNat intPart : ℚ) + (digitsToNat fracPart : ℚ) / 10 ^ fracPart.length)
    else none
  | _ => none

/-- Whitespace stripped by JavaScript ToNumber. -/
def isJsSpace (c : Char) : Bool :=
  c == ' ' || c == '\t' || c == '\n' || c == '\r'

/-- JavaScript `Number(string)`, restricted to the decimal fragment the
widget feeds it: surrounding whitespace is ignored, a whitespace-only
string is 0, an optional sign precedes an unsigned decimal literal; any
other string, and any string denoting a non-finite value (such as
"Infinity"), gives a non-finite result, modelled as `none`. -/
def jsToNumber (s : List Char) : Option ℚ :=
  let t := ((s.dropWhile isJsSpace).reverse.dropWhile isJsSpace).reverse
  match t with
  | [] => some 0
  | '+' :: rest => parseUnsigned rest
  | '-' :: rest => (parseUnsigned rest).map (fun q => -q)
  | _ => parseUnsigned t

/-- `String.replace(",", ".")` in JavaScript replaces only the first
comma. -/
def replaceFirstComma : List Char → List Char
  | [] => []
  | c :: cs => if c = ',' then '.' :: cs else c :: replaceFirstComma cs

/-- `parseNum` (Index.tsx lines 83–87): the empty string, `undefined`
and `null` give `undefined` (here `none`); otherwise the first comma is
replaced by a dot and the text parsed, a non-finite parse giving
`undefined`.  An already-numeric value restringifies and reparses to
itself (a finite number's string image has no comma), so it is returned
unchanged. -/
def parseNum : RawValue → Option ℚ
  | RawValue.undef => none
  | RawValue.num q => some q
  | RawValue.str s => if s.isEmpty then none else jsToNumber (replaceFirstComma s)

/-- `clampInt` (lines 89–92): `Math.max(min, Math.floor(n))` when `n` is
defined. -/
def clampInt (n : Option ℚ) (lo : ℚ) : Option ℚ :=
  n.map (fun q => max lo ((⌊q⌋ : ℤ) : ℚ))

/-- `clampMin` (lines 94–97): `Math.max(min, n)` when `n` is defined. -/
def clampMin (n : Option ℚ) (lo : ℚ) : Option ℚ :=
  n.map (fun q => max lo q)

/-- The sanitizer applied to `householdSize` (line 104). -/
def sanitizeHouseholdSize (v : RawValue) : Option ℚ := clampInt (parseNum v) 1

/-- The sanitizer applied to `electricityPrice` (line 105). -/
def sanitizeElectricityPrice (v : RawValue) : Option ℚ := clampMin (parseNum v) (1 / 10)

/-- The sanitizer applied to `systemCost` (line 106, before `?? 0`). -/
def sanitizeSystemCost (v : RawValue) : Option ℚ := clampInt (parseNum v) 0

/-- The sanitizer applied to `grant` (line 107, before `?? 0`). -/
def sanitizeGrant (v : RawValue) : Option ℚ := clampInt (parseNum v) 0

/-- The sanitizer applied to `kwhPerPerson` (line 108). -/
def sanitizeKwhPerPerson (v : RawValue) : Option ℚ := clampInt (parseNum v) 500

/-- The form state consumed by the sanitized calculator: five fields that
may hold raw text, plus the always-numeric `maintenance`,
`savingsRatio` and `horizonYears` (`horizonYears` is kept as a natural
number, matching its use as an array length). -/
structure RoiInputs where
  householdSize : RawValue
  electricityPrice : RawValue
  systemCost : RawValue
  grant : RawValue
  kwhPerPerson : RawValue
  maintenance : ℚ
  savingsRatio : ℚ
  horizonYears : ℕ

/-- `Math.round`: round half toward positive infinity. -/
def jsRound (q : ℚ) : ℤ := ⌊q + 1 / 2⌋

/-- One point of the cash-flow series: `{ year, value }` with an
integral value. -/
structure CashPoint where
  year : ℕ
  value : ℤ
deriving DecidableEq

/-- The record returned by the `derived` memo.  `paybackYears = none`
models the `Infinity` sentinel. -/
structure DerivedResults where
  annualHotWaterKwh : ℚ
  annualHotWaterCost : ℚ
  annualSavings : ℚ
  netAnnualSavings : ℚ
  upfront : ℚ
  paybackYears : Option ℚ
  data : List CashPoint
  tenYearRoi : ℚ
deriving DecidableEq

/-- The cash-flow loop (lines 138–142): a mutable `cumulative` starts at
`-upfront`, is incremented by `netAnnualSavings` for every year after
year 0, and each emitted value is `Math.round` of the running
cumulative. -/
def cashflow (net : ℚ) : ℚ → List ℕ → List CashPoint
  | _, [] => []
  | cumulative, year :: rest =>
    let c := if 0 < year then cumulative + net else cumulative
    { year := year, value := jsRound c } :: cashflow net c rest

/-- The `derived` memo of the sanitized calculator (lines 103–156).  The
guard branch fires exactly when one of the three required sanitized
fields is undefined; `systemCost` and `grant` fall back to 0 via
`?? 0` in both branches. -/
def derived (form : RoiInputs) : DerivedResults :=
  match sanitizeHouseholdSize form.householdSize,
        sanitizeElectricityPrice form.electricityPrice,
        sanitizeKwhPerPerson form.kwhPerPerson with
  | some householdSize, some electricityPrice, some kwhPerPerson =>
    let systemCost := (sanitizeSystemCost form.systemCost).getD 0
    let grant := (sanitizeGrant form.grant).getD 0
    let annualHotWaterKwh := householdSize * kwhPerPerson
    let annualHotWaterCost := annualHotWaterKwh * electricityPrice
    let annualSavings := annualHotWaterCost * form.savingsRatio
    let netAnnualSavings := max (annualSavings - form.maintenance) 0
    let upfront := max (systemCost - grant) 0
    let paybackYears :=
      if 0 < netAnnualSavings then some (upfront / netAnnualSavings) else none
    let data := cashflow netAnnualSavings (-upfront) (List.range (form.horizonYears + 1))
    let tenYearRoi :=
      if 0 < upfront then (netAnnualSavings * 10 - upfront) / upfront else 0
    { annualHotWaterKwh := annualHotWaterKwh
      annualHotWaterCost := annualHotWaterCost
      annualSavings := annualSavings
      netAnnualSavings := netAnnualSavings
      upfront := upfront
      paybackYears := paybackYears
      data := data
      tenYearRoi := tenYearRoi }
  | _, _, _ =>
    { annualHotWaterKwh := 0
      annualHotWaterCost := 0
      annualSavings := 0
      netAnnualSavings := 0
      upfront := max ((sanitizeSystemCost form.systemCost).getD 0
        - (sanitizeGrant form.grant).getD 0) 0
      paybackYears := none
      data := (List.range (form.horizonYears + 1)).map (fun year => { year := year, value := 0 })
      tenYearRoi := 0 }

/-- The onBlur commit for `householdSize` (lines 187–192): the sanitized
value is written back, or the empty string when it is undefined. -/
def blurHouseholdSize (v : RawValue) : RawValue :=
  match sanitizeHouseholdSize v with
  | none => RawValue.str []
  | some n => RawValue.num n

/-- The onBlur commit for `electricityPrice` (lines 210–215). -/
def blurElectricityPrice (v : RawValue) : RawValue :=
  match sanitizeElectricityPrice v with
  | none => RawValue.str []
  | some n => RawValue.num n

/-- The onBlur commit for `kwhPerPerson` (lines 271–276). -/
def blurKwhPerPerson (v : RawValue) : RawValue :=
  match sanitizeKwhPerPerson v with
  | none => RawValue.str []
  | some n => RawValue.num n

/-- The form state of the legacy numeric-only calculator (lines
391–400): every field is a plain number. -/
structure LegacyRoiInputs where
  householdSize : ℚ
  electricityPrice : ℚ
  systemCost : ℚ
  grant : ℚ
  maintenance : ℚ
  savingsRatio : ℚ
  kwhPerPerson : ℚ
  horizonYears : ℕ

/-- The `derived` memo of the legacy calculator (lines 420–448): the
same formulas, applied directly to the numeric form state with no
sanitization. -/
def legacyDerived (form : LegacyRoiInputs) : DerivedResults :=
  let annualHotWaterKwh := form.householdSize * form.kwhPerPerson
  let annualHotWaterCost := annualHotWaterKwh * form.electricityPrice
  let annualSavings := annualHotWaterCost * form.savingsRatio
  let netAnnualSavings := max (annualSavings - form.maintenance) 0
  let upfront := max (form.systemCost - form.grant) 0
  let paybackYears :=
    if 0 < netAnnualSavings then some (upfront / netAnnualSavings) else none
  let data := cashflow netAnnualSavings (-upfront) (List.range (form.horizonYears + 1))
  let tenYearRoi :=
    if 0 < upfront then (netAnnualSavings * 10 - upfront) / upfront else 0
  { annualHotWaterKwh := annualHotWaterKwh
    annualHotWaterCost := annualHotWaterCost
    annualSavings := annualSavings
    netAnnualSavings := netAnnualSavings
    upfront := upfront
    paybackYears := paybackYears
    data := data
    tenYearRoi := tenYearRoi }

/-- Scenario A of the specification: the default assumptions, entered as
already-numeric committed values. -/
def scenarioA : RoiInputs :=
  { householdSize := RawValue.num 3
    electricityPrice := RawValue.num (39 / 20)
    systemCost := RawValue.num 29000
    grant := RawValue.num 0
    kwhPerPerson := RawValue.num 1000
    maintenance := 0
    savingsRatio := 33 / 50
    horizonYears := 15 }

/-- Scenario A with the kwhPerPerson field still the raw empty string
(mid-edit state). -/
def scenarioEmptyKwh : RoiInputs :=
  { scenarioA with kwhPerPerson := RawValue.str [] }

/-- Helper abbreviation: the main-branch result as a function of the
five sanitized values and the numeric assumptions. -/
def mainResult (hs ep kp sc g m r : ℚ) (hz : ℕ) : DerivedResults :=
  { annualHotWaterKwh := hs * kp
    annualHotWaterCost := hs * kp * ep
    annualSavings := hs * kp * ep * r
    netAnnualSavings := max (hs * kp * ep * r - m) 0
    upfront := max (sc - g) 0
    paybackYears :=
      if 0 < max (hs * kp * ep * r - m) 0 then
        some (max (sc - g) 0 / max (hs * kp * ep * r - m) 0)
      else none
    data := cashflow (max (hs * kp * ep * r - m) 0) (-max (sc - g) 0) (List.range (hz + 1))
    tenYearRoi :=
      if 0 < max (sc - g) 0 then
        (max (hs * kp * ep * r - m) 0 * 10 - max (sc - g) 0) / max (sc - g) 0
      else 0 }

/-- An extended JavaScript number: a finite value (an exact rational),
one of the two infinities, or NaN.  This second carrier makes the
finiteness behaviour of the computation expressible. -/
inductive JsNum where
  | fin (q : ℚ)
  | posInf
  | negInf
  | nan
deriving DecidableEq

/-- JavaScript unary minus. -/
def JsNum.neg : JsNum → JsNum
  | fin q => fin (-q)
  | posInf => negInf
  | negInf => posInf
  | nan => nan

/-- JavaScript addition: NaN propagates, opposite infinities give NaN. -/
def JsNum.add : JsNum → JsNum → JsNum
  | nan, _ => nan
  | _, nan => nan
  | posInf, negInf => nan
  | negInf, posInf => nan
  | posInf, _ => posInf
  | _, posInf => posInf
  | negInf, _ => negInf
  | _, negInf => negInf
  | fin a, fin b => fin (a + b)

/-- JavaScript subtraction, as addition of the negation. -/
def JsNum.sub (a b : JsNum) : JsNum := a.add b.neg

/-- JavaScript multiplication: NaN propagates, infinity times zero is
NaN, otherwise infinities follow the sign rules. -/
def JsNum.mul : JsNum → JsNum → JsNum
  | nan, _ => nan
  | _, nan => nan
  | fin a, fin b => fin (a * b)
  | posInf, posInf => posInf
  | posInf, negInf => negInf
  | negInf, posInf => negInf
  | negInf, negInf => posInf
  | posInf, fin b => if b = 0 then nan else if 0 < b then posInf else negInf
  | fin a, posInf => if a = 0 then nan else if 0 < a then posInf else negInf
  | negInf, fin b => if b = 0 then nan else if 0 < b then negInf else posInf
  | fin a, negInf => if a = 0 then nan else if 0 < a then negInf else posInf

/-- JavaScript division: NaN propagates, 0/0 is NaN, a nonzero finite
value over zero is a signed infinity, finite over infinite is 0. -/
def JsNum.div : JsNum → JsNum → JsNum
  | nan, _ => nan
  | _, nan => nan
  | fin a, fin b =>
    if b = 0 then (if a = 0 then nan else if 0 < a then posInf else negInf)
    else fin (a / b)
  | fin _, posInf => fin 0
  | fin _, negInf => fin 0
  | posInf, fin b => if 0 ≤ b then posInf else negInf
  | negInf, fin b => if 0 ≤ b then negInf else posInf
  | posInf, posInf => nan
  | posInf, negInf => nan
  | negInf, posInf => nan
  | negInf, negInf => nan

/-- JavaScript strict less-than: false whenever NaN is involved. -/
def JsNum.lt : JsNum → JsNum → Bool
  | nan, _ => false
  | _, nan => false
  | fin a, fin b => decide (a < b)
  | fin _, posInf => true
  | fin _, negInf => false
  | negInf, fin _ => true
  | posInf, fin _ => false
  | negInf, posInf => true
  | posInf, negInf => false
  | posInf, posInf => false
  | negInf, negInf => false

/-- JavaScript Math.max: NaN if either argument is NaN, otherwise the
larger argument. -/
def JsNum.max (a b : JsNum) : JsNum :=
  if a = nan ∨ b = nan then nan else if a.lt b then b else a

/-- JavaScript Math.round on the extended carrier: finite values round,
infinities and NaN pass through. -/
def JsNum.round : JsNum → JsNum
  | fin q => fin ((jsRound q : ℤ) : ℚ)
  | posInf => posInf
  | negInf => negInf
  | nan => nan

/-- Finiteness predicate: true exactly on finite values. -/
def JsNum.isFinite : JsNum → Bool
  | fin _ => true
  | _ => false

/-- A cash-flow point of the extended-carrier rendering. -/
structure CashPointJs where
  year : ℕ
  value : JsNum
deriving DecidableEq

/-- The derived record of the extended-carrier rendering; paybackYears
holds the literal Infinity sentinel when net savings are not positive. -/
structure DerivedResultsJs where
  annualHotWaterKwh : JsNum
  annualHotWaterCost : JsNum
  annualSavings : JsNum
  netAnnualSavings : JsNum
  upfront : JsNum
  paybackYears : JsNum
  data : List CashPointJs
  tenYearRoi : JsNum
deriving DecidableEq

/-- The cash-flow loop (lines 138–142) over the extended carrier. -/
def cashflowJs (net : JsNum) : JsNum → List ℕ → List CashPointJs
  | _, [] => []
  | cumulative, year :: rest =>
    let c := if 0 < year then cumulative.add net else cumulative
    { year := year, value := c.round } :: cashflowJs net c rest

/-- The `derived` memo (lines 103–156) rendered over the extended
carrier, with every arithmetic step a JavaScript operation that can in
principle produce NaN or an infinity.  The sanitized inputs themselves
are finite (sanitization yields exact rationals or undefined). -/
def derivedJs (form : RoiInputs) : DerivedResultsJs :=
  match sanitizeHouseholdSize form.householdSize,
        sanitizeElectricityPrice form.electricityPrice,
        sanitizeKwhPerPerson form.kwhPerPerson with
  | some householdSize, some electricityPrice, some kwhPerPerson =>
    let systemCost := JsNum.fin ((sanitizeSystemCost form.systemCost).getD 0)
    let grant := JsNum.fin ((sanitizeGrant form.grant).getD 0)
    let annualHotWaterKwh := (JsNum.fin householdSize).mul (JsNum.fin kwhPerPerson)
    let annualHotWaterCost := annualHotWaterKwh.mul (JsNum.fin electricityPrice)
    let annualSavings := annualHotWaterCost.mul (JsNum.fin form.savingsRatio)
    let netAnnualSavings := (annualSavings.sub (JsNum.fin form.maintenance)).max (JsNum.fin 0)
    let upfront := (systemCost.sub grant).max (JsNum.fin 0)
    let paybackYears :=
      if (JsNum.fin 0).lt netAnnualSavings then upfront.div netAnnualSavings else JsNum.posInf
    let data := cashflowJs netAnnualSavings upfront.neg (List.range (form.horizonYears + 1))
    let tenYearRoi :=
      if (JsNum.fin 0).lt upfront then
        ((netAnnualSavings.mul (JsNum.fin 10)).sub upfront).div upfront
      else JsNum.fin 0
    { annualHotWaterKwh := annualHotWaterKwh
      annualHotWaterCost := annualHotWaterCost
      annualSavings := annualSavings
      netAnnualSavings := netAnnualSavings
      upfront := upfront
      paybackYears := paybackYears
      data := data
      tenYearRoi := tenYearRoi }
  | _, _, _ =>
    { annualHotWaterKwh := JsNum.fin 0
      annualHotWaterCost := JsNum.fin 0
      annualSavings := JsNum.fin 0
      netAnnualSavings := JsNum.fin 0
      upfront := ((JsNum.fin ((sanitizeSystemCost form.systemCost).getD 0)).sub
        (JsNum.fin ((sanitizeGrant form.grant).getD 0))).max (JsNum.fin 0)
      paybackYears := JsNum.posInf
      data := (List.range (form.horizonYears + 1)).map
        (fun year => { year := year, value := JsNum.fin 0 })
      tenYearRoi := JsNum.fin 0 }

/-- Unfolding one step of the cash-flow loop. -/
lemma cashflow_cons (net c : ℚ) (y : ℕ) (ys : List ℕ) :
    cashflow net c (y :: ys) =
      { year := y, value := jsRound (if 0 < y then c + net else c) } ::
        cashflow net (if 0 < y then c + net else c) ys := rfl

/-- Closed form of the cash-flow loop over a positive year range. -/
lemma cashflow_range_aux (net : ℚ) :
    ∀ (m s : ℕ) (c : ℚ), 1 ≤ s →
      cashflow net c (List.range' s m) =
        (List.range m).map
          (fun i => { year := s + i, value := jsRound (c + ((i : ℚ) + 1) * net) })
  | 0, _, _, _ => rfl
  | m + 1, s, c, hs => by
    have h0 : 0 < s := hs
    rw [List.range'_succ, cashflow_cons, if_pos h0,
      cashflow_range_aux net m (s + 1) (c + net) (Nat.le_add_left 1 s),
      List.range_succ_eq_map]
    simp only [List.map_cons, List.map_map, Function.comp]
    refine congrArg₂ List.cons ?_ (List.map_congr_left fun i _ => ?_)
    · simp [CashPoint.mk.injEq]
    · simp only [Function.comp_apply, CashPoint.mk.injEq]
      refine ⟨by omega, ?_⟩
      congr 1
      push_cast
      ring

/-- Closed form of the whole cash-flow series: the value at year i is
the rounded running cumulative -upfront + i·net. -/
lemma cashflow_range (net u : ℚ) (n : ℕ) :
    cashflow net (-u) (List.range (n + 1)) =
      (List.range (n + 1)).map
        (fun i => { year := i, value := jsRound (-u + (i : ℚ) * net) }) := by
  conv_lhs => rw [List.range_eq_range', List.range'_succ]
  rw [cashflow_cons, if_neg (lt_irrefl 0)]
  simp only [Nat.zero_add]
  rw [cashflow_range_aux net n 1 (-u) le_rfl]
  conv_rhs => rw [List.range_succ_eq_map]
  simp only [List.map_cons, List.map_map, Function.comp]
  refine congrArg₂ List.cons ?_ (List.map_congr_left fun i _ => ?_)
  · simp [CashPoint.mk.injEq]
  · simp only [Function.comp_apply, CashPoint.mk.injEq]
    refine ⟨by omega, ?_⟩
    congr 1
    push_cast
    ring

/-- When the three required fields all parse, `derived` takes the main
branch, with each sanitized value spelled out. -/
lemma derived_eq_mainResult (f : RoiInputs) (h e k : ℚ)
    (hh : parseNum f.householdSize = some h)
    (he : parseNum f.electricityPrice = some e)
    (hk : parseNum f.kwhPerPerson = some k) :
    derived f =
      mainResult (max 1 ((⌊h⌋ : ℤ) : ℚ)) (max (1 / 10) e) (max 500 ((⌊k⌋ : ℤ) : ℚ))
        ((sanitizeSystemCost f.systemCost).getD 0) ((sanitizeGrant f.grant).getD 0)
        f.maintenance f.savingsRatio f.horizonYears := by
  simp only [derived, sanitizeHouseholdSize, sanitizeElectricityPrice, sanitizeKwhPerPerson,
    clampInt, clampMin, hh, he, hk, Option.map_some', mainResult]

/-- When a required field fails to parse, `derived` takes the guard
branch and returns the degenerate record. -/
lemma derived_incomplete (f : RoiInputs)
    (hc : parseNum f.householdSize = none ∨ parseNum f.electricityPrice = none ∨
      parseNum f.kwhPerPerson = none) :
    derived f =
      { annualHotWaterKwh := 0
        annualHotWaterCost := 0
        annualSavings := 0
        netAnnualSavings := 0
        upfront := max ((sanitizeSystemCost f.systemCost).getD 0
          - (sanitizeGrant f.grant).getD 0) 0
        paybackYears := none
        data := (List.range (f.horizonYears + 1)).map (fun year => { year := year, value := 0 })
        tenYearRoi := 0 } := by
  rcases hH : parseNum f.householdSize with _ | vH <;>
    rcases hE : parseNum f.electricityPrice with _ | vE <;>
      rcases hK : parseNum f.kwhPerPerson with _ | vK <;>
        simp only [derived, sanitizeHouseholdSize, sanitizeElectricityPrice,
          sanitizeKwhPerPerson, clampInt, clampMin, hH, hE, hK,
          Option.map_some', Option.map_none']
  all_goals simp_all

lemma JsNum.mul_fin (a b : ℚ) : (JsNum.fin a).mul (JsNum.fin b) = JsNum.fin (a * b) := rfl

lemma JsNum.add_fin (a b : ℚ) : (JsNum.fin a).add (JsNum.fin b) = JsNum.fin (a + b) := rfl

lemma JsNum.neg_fin (a : ℚ) : (JsNum.fin a).neg = JsNum.fin (-a) := rfl

lemma JsNum.sub_fin (a b : ℚ) : (JsNum.fin a).sub (JsNum.fin b) = JsNum.fin (a - b) := by
  simp [JsNum.sub, JsNum.add, JsNum.neg, sub_eq_add_neg]

lemma JsNum.max_fin (a b : ℚ) : (JsNum.fin a).max (JsNum.fin b) = JsNum.fin (a ⊔ b) := by
  by_cases hab : a < b
  · simp [JsNum.max, JsNum.lt, hab, max_eq_right hab.le]
  · simp [JsNum.max, JsNum.lt, hab, max_eq_left (not_lt.mp hab)]

lemma JsNum.round_fin (a : ℚ) : (JsNum.fin a).round = JsNum.fin ((jsRound a : ℤ) : ℚ) := rfl

lemma JsNum.div_fin (a b : ℚ) (hb : b ≠ 0) :
    (JsNum.fin a).div (JsNum.fin b) = JsNum.fin (a / b) := by
  simp [JsNum.div, hb]

lemma JsNum.lt_fin (a b : ℚ) : (JsNum.fin a).lt (JsNum.fin b) = decide (a < b) := rfl

lemma JsNum.isFinite_fin (a : ℚ) : (JsNum.fin a).isFinite = true := rfl

/-- Every value of the cash-flow loop stays finite when the increment
and the initial cumulative are finite. -/
lemma cashflowJs_value_fin (net : ℚ) :
    ∀ (ys : List ℕ) (c : ℚ) (p : CashPointJs),
      p ∈ cashflowJs (JsNum.fin net) (JsNum.fin c) ys → p.value.isFinite = true
  | [], _, p, hp => by simp [cashflowJs] at hp
  | y :: ys, c, p, hp => by
    have hstep : (if 0 < y then (JsNum.fin c).add (JsNum.fin net) else JsNum.fin c) =
        JsNum.fin (if 0 < y then c + net else c) := by
      split <;> rfl
    rw [cashflowJs, hstep] at hp
    rcases List.mem_cons.mp hp with hp | hp
    · rw [hp]
      rfl
    · exact cashflowJs_value_fin net ys (if 0 < y then c + net else c) p hp

/-- C8: in both the guard branch and the main branch, upfront equals
max(systemCost − grant, 0) over the sanitized system cost and grant, and
is never negative (a grant exceeding the cost gives 0). -/
theorem upfront_never_negative (f : RoiInputs) :
    (derived f).upfront =
      max ((sanitizeSystemCost f.systemCost).getD 0 - (sanitizeGrant f.grant).getD 0) 0 ∧
    0 ≤ (derived f).upfront := by
  have hu : (derived f).upfront =
      max ((sanitizeSystemCost f.systemCost).getD 0 - (sanitizeGrant f.grant).getD 0) 0 := by
    rcases hH : parseNum f.householdSize with _ | vH <;>
      rcases hE : parseNum f.electricityPrice with _ | vE <;>
        rcases hK : parseNum f.kwhPerPerson with _ | vK <;>
          simp only [derived, sanitizeHouseholdSize, sanitizeElectricityPrice,
            sanitizeKwhPerPerson, clampInt, clampMin, hH, hE, hK,
            Option.map_some', Option.map_none']
  exact ⟨hu, hu ▸ le_max_right _ _⟩

/-- C3: when any of the three required fields sanitizes to no value, the
degenerate result is returned: zero energy and money fields, upfront
still max(systemCost − grant, 0), the unbounded payback sentinel, a
zeroed series of horizonYears+1 points indexed 0..horizonYears, and a
zero ten-year ROI. -/
theorem guard_degenerate_result (f : RoiInputs)
    (hc : parseNum f.householdSize = none ∨ parseNum f.electricityPrice = none ∨
      parseNum f.kwhPerPerson = none) :
    (derived f).annualHotWaterKwh = 0 ∧
    (derived f).annualHotWaterCost = 0 ∧
    (derived f).annualSavings = 0 ∧
    (derived f).netAnnualSavings = 0 ∧
    (derived f).upfront = max ((sanitizeSystemCost f.systemCost).getD 0
      - (sanitizeGrant f.grant).getD 0) 0 ∧
    (derived f).paybackYears = none ∧
    (derived f).data.length = f.horizonYears + 1 ∧
    (∀ i, ∀ hi : i < (derived f).data.length,
      (derived f).data[i] = { year := i, value := 0 }) ∧
    (derived f).tenYearRoi = 0 := by
  rw [derived_incomplete f hc]
  refine ⟨rfl, rfl, rfl, rfl, rfl, rfl, by simp, ?_, rfl⟩
  intro i hi
  simp only [List.length_map, List.length_range] at hi
  simp [List.getElem_map, List.getElem_range]

/-- C4: for complete valid input, paybackYears is upfront divided by the
net annual savings exactly when the latter are positive, and the
unbounded sentinel exactly when they are ≤ 0. -/
theorem payback_spec (f : RoiInputs) (h e k : ℚ)
    (hh : parseNum f.householdSize = some h)
    (he : parseNum f.electricityPrice = some e)
    (hk : parseNum f.kwhPerPerson = some k) :
    (0 < (derived f).netAnnualSavings →
      (derived f).paybackYears =
        some ((derived f).upfront / (derived f).netAnnualSavings)) ∧
    ((derived f).netAnnualSavings ≤ 0 → (derived f).paybackYears = none) ∧
    ((derived f).paybackYears = none ↔ (derived f).netAnnualSavings ≤ 0) := by
  rw [derived_eq_mainResult f h e k hh he hk]
  simp only [mainResult]
  by_cases hp : 0 < max (max 1 ((⌊h⌋ : ℤ) : ℚ) * max 500 ((⌊k⌋ : ℤ) : ℚ) * max (1 / 10) e
      * f.savingsRatio - f.maintenance) 0
  · simp [hp, not_le.mpr hp]
  · simp [hp, not_lt.mp hp]

/-- C6: for complete valid input, tenYearRoi is
(netAnnualSavings·10 − upfront)/upfront when upfront is positive, 0 when
upfront is 0, and its value never depends on horizonYears. -/
theorem tenYearRoi_spec (f : RoiInputs) (h e k : ℚ)
    (hh : parseNum f.householdSize = some h)
    (he : parseNum f.electricityPrice = some e)
    (hk : parseNum f.kwhPerPerson = some k) :
    (0 < (derived f).upfront →
      (derived f).tenYearRoi =
        ((derived f).netAnnualSavings * 10 - (derived f).upfront) / (derived f).upfront) ∧
    ((derived f).upfront = 0 → (derived f).tenYearRoi = 0) ∧
    ∀ hz : ℕ,
      (derived { f with horizonYears := hz }).tenYearRoi = (derived f).tenYearRoi := by
  have hmain := derived_eq_mainResult f h e k hh he hk
  refine ⟨?_, ?_, ?_⟩
  · intro hup
    rw [hmain] at hup ⊢
    simp only [mainResult] at hup ⊢
    rw [if_pos hup]
  · intro hup
    rw [hmain] at hup ⊢
    simp only [mainResult] at hup ⊢
    rw [hup] at *
    simp
  · intro hz
    have hmain2 := derived_eq_mainResult { f with horizonYears := hz } h e k hh he hk
    rw [hmain, hmain2]
    simp [mainResult]

/-- C1: for complete valid input, the cash-flow series has exactly
horizonYears+1 entries with year fields 0..horizonYears in increasing
order; the value at year 0 is the rounded −upfront, and the value at
every year i is the rounding of the running cumulative total
−upfront + i·netAnnualSavings (rounding applied to the running total,
never re-accumulated from rounded values). -/
theorem cashflow_series_spec (f : RoiInputs) (h e k : ℚ)
    (hh : parseNum f.householdSize = some h)
    (he : parseNum f.electricityPrice = some e)
    (hk : parseNum f.kwhPerPerson = some k) :
    (derived f).data.length = f.horizonYears + 1 ∧
    (∀ i, ∀ hi : i < (derived f).data.length, ((derived f).data[i]).year = i) ∧
    (∀ h0 : 0 < (derived f).data.length,
      ((derived f).data[0]).value = jsRound (-(derived f).upfront)) ∧
    (∀ i, ∀ hi : i < (derived f).data.length,
      ((derived f).data[i]).value =
        jsRound (-(derived f).upfront + (i : ℚ) * (derived f).netAnnualSavings)) := by
  rw [derived_eq_mainResult f h e k hh he hk]
  simp only [mainResult, cashflow_range]
  refine ⟨by simp, ?_, ?_, ?_⟩
  · intro i hi
    simp only [List.length_map, List.length_range] at hi
    simp [List.getElem_map, List.getElem_range]
  · intro h0
    simp [List.getElem_map, List.getElem_range]
  · intro i hi
    simp only [List.length_map, List.length_range] at hi
    simp [List.getElem_map, List.getElem_range]

/-- C5: Scenario A — household of 3, price 1.95, cost 29000, no grant,
1000 kWh per person, no maintenance, ratio 0.66, horizon 15 — yields
3000 kWh, cost 5850, savings 3861, net savings 3861, upfront 29000, a
payback of 29000/3861 ≈ 7.51 years, the series starting −29000 then
−25139, and a ten-year ROI ≈ 0.331. -/
theorem scenarioA_spec :
    (derived scenarioA).annualHotWaterKwh = 3000 ∧
    (derived scenarioA).annualHotWaterCost = 5850 ∧
    (derived scenarioA).annualSavings = 3861 ∧
    (derived scenarioA).netAnnualSavings = 3861 ∧
    (derived scenarioA).upfront = 29000 ∧
    (derived scenarioA).paybackYears = some (29000 / 3861) ∧
    |(29000 / 3861 : ℚ) - 751 / 100| < 1 / 100 ∧
    (derived scenarioA).data.take 2 =
      [{ year := 0, value := -29000 }, { year := 1, value := -25139 }] ∧
    |(derived scenarioA).tenYearRoi - 331 / 1000| < 1 / 1000 := by
  have hd := derived_eq_mainResult scenarioA 3 (39 / 20) 1000 rfl rfl rfl
  have hd2 : derived scenarioA = mainResult 3 (39 / 20) 1000 29000 0 0 (33 / 50) 15 := by
    rw [hd]
    norm_num [scenarioA, sanitizeSystemCost, sanitizeGrant, clampInt, parseNum, max_def]
  rw [hd2]
  simp only [mainResult, cashflow_range]
  norm_num [max_def, jsRound, List.take_range, List.range_succ, abs_lt]

/-- C7: parsing yields no value for undefined and for the empty string,
otherwise it parses the text with its first comma replaced by a dot (so
"1,95" is 1.95), a non-finite parse giving no value; integer fields are
floored then clamped to minimums 1 / 0 / 0 / 500 and the decimal
electricity price is clamped to 0.1 without flooring. -/
theorem sanitize_spec (v : RawValue) (q : ℚ) (hq : parseNum v = some q) :
    parseNum RawValue.undef = none ∧
    parseNum (RawValue.str []) = none ∧
    (∀ s : List Char, s ≠ [] →
      parseNum (RawValue.str s) = jsToNumber (replaceFirstComma s)) ∧
    parseNum (RawValue.str ['1', ',', '9', '5']) = some (39 / 20) ∧
    (∀ w : RawValue, parseNum w = none →
      sanitizeHouseholdSize w = none ∧ sanitizeElectricityPrice w = none ∧
      sanitizeSystemCost w = none ∧ sanitizeGrant w = none ∧
      sanitizeKwhPerPerson w = none) ∧
    sanitizeHouseholdSize v = some (max 1 ((⌊q⌋ : ℤ) : ℚ)) ∧
    sanitizeSystemCost v = some (max 0 ((⌊q⌋ : ℤ) : ℚ)) ∧
    sanitizeGrant v = some (max 0 ((⌊q⌋ : ℤ) : ℚ)) ∧
    sanitizeKwhPerPerson v = some (max 500 ((⌊q⌋ : ℤ) : ℚ)) ∧
    sanitizeElectricityPrice v = some (max (1 / 10) q) := by
  refine ⟨rfl, rfl, ?_, ?_, ?_, ?_, ?_, ?_, ?_, ?_⟩
  · intro s hs
    cases s with
    | nil => exact absurd rfl hs
    | cons c cs => rfl
  · have h1 : parseNum (RawValue.str ['1', ',', '9', '5']) =
        some ((digitsToNat ['1'] : ℚ)
          + (digitsToNat ['9', '5'] : ℚ) / 10 ^ List.length ['9', '5']) := rfl
    have h2 : digitsToNat ['1'] = 1 := rfl
    have h3 : digitsToNat ['9', '5'] = 95 := rfl
    rw [h1, h2, h3]
    norm_num
  · intro w hw
    simp [sanitizeHouseholdSize, sanitizeElectricityPrice, sanitizeSystemCost,
      sanitizeGrant, sanitizeKwhPerPerson, clampInt, clampMin, hw]
  all_goals
    simp [sanitizeHouseholdSize, sanitizeElectricityPrice, sanitizeSystemCost,
      sanitizeGrant, sanitizeKwhPerPerson, clampInt, clampMin, hq]

/-- C2 as stated is false: blurring a field whose raw value does not
parse commits the empty string, not the field minimum.  Concretely,
blurring kwhPerPerson on the raw empty string leaves the empty string
rather than the minimum 500. -/
theorem blur_counterexample :
    parseNum (RawValue.str []) = none ∧
    blurKwhPerPerson (RawValue.str []) = RawValue.str [] ∧
    blurKwhPerPerson (RawValue.str []) ≠ RawValue.num 500 := by
  refine ⟨rfl, rfl, ?_⟩
  intro hcontra
  exact RawValue.noConfusion hcontra

/-- C2 amended: on blur, a raw value that parses to no value is
committed as the empty string (the field stays empty, it is not coerced
to the minimum), while a raw value that parses is committed as the
sanitized number clamped to the field minimum (1, 0.1 and 500
respectively). -/
theorem blur_commit_spec (v : RawValue) :
    (parseNum v = none →
      blurHouseholdSize v = RawValue.str [] ∧
      blurElectricityPrice v = RawValue.str [] ∧
      blurKwhPerPerson v = RawValue.str []) ∧
    ∀ q : ℚ, parseNum v = some q →
      blurHouseholdSize v = RawValue.num (max 1 ((⌊q⌋ : ℤ) : ℚ)) ∧
      blurElectricityPrice v = RawValue.num (max (1 / 10) q) ∧
      blurKwhPerPerson v = RawValue.num (max 500 ((⌊q⌋ : ℤ) : ℚ)) := by
  constructor
  · intro h0
    simp [blurHouseholdSize, blurElectricityPrice, blurKwhPerPerson,
      sanitizeHouseholdSize, sanitizeElectricityPrice, sanitizeKwhPerPerson,
      clampInt, clampMin, h0]
  · intro q hq
    simp [blurHouseholdSize, blurElectricityPrice, blurKwhPerPerson,
      sanitizeHouseholdSize, sanitizeElectricityPrice, sanitizeKwhPerPerson,
      clampInt, clampMin, hq]

/-- C10: on input whose five editable fields are already numeric and on
or above their minimums (integral householdSize ≥ 1, price ≥ 0.1,
integral systemCost and grant ≥ 0, integral kwhPerPerson ≥ 500), the
sanitized calculator and the legacy numeric-only calculator produce
identical results. -/
theorem sanitized_legacy_equiv (h e sc g k m r : ℚ) (hz : ℕ)
    (hhi : ((⌊h⌋ : ℤ) : ℚ) = h) (hh1 : 1 ≤ h)
    (hei : 1 / 10 ≤ e)
    (hsci : ((⌊sc⌋ : ℤ) : ℚ) = sc) (hsc0 : 0 ≤ sc)
    (hgi : ((⌊g⌋ : ℤ) : ℚ) = g) (hg0 : 0 ≤ g)
    (hki : ((⌊k⌋ : ℤ) : ℚ) = k) (hk5 : 500 ≤ k) :
    derived
      { householdSize := RawValue.num h
        electricityPrice := RawValue.num e
        systemCost := RawValue.num sc
        grant := RawValue.num g
        kwhPerPerson := RawValue.num k
        maintenance := m
        savingsRatio := r
        horizonYears := hz } =
    legacyDerived
      { householdSize := h
        electricityPrice := e
        systemCost := sc
        grant := g
        maintenance := m
        savingsRatio := r
        kwhPerPerson := k
        horizonYears := hz } := by
  rw [derived_eq_mainResult
    { householdSize := RawValue.num h
      electricityPrice := RawValue.num e
      systemCost := RawValue.num sc
      grant := RawValue.num g
      kwhPerPerson := RawValue.num k
      maintenance := m
      savingsRatio := r
      horizonYears := hz } h e k rfl rfl rfl]
  simp only [sanitizeSystemCost, sanitizeGrant, clampInt, parseNum,
    Option.map_some', Option.getD_some]
  rw [hhi, hki, hsci, hgi, max_eq_right hh1, max_eq_right hei, max_eq_right hk5,
    max_eq_right hsc0, max_eq_right hg0]
  simp [mainResult, legacyDerived, mul_assoc]

/-- C9: for every input, every field of the result other than
paybackYears is a finite number — no NaN or infinity can reach the
annual energy and money fields, the upfront cost, the ten-year ROI or
any cash-flow value — and paybackYears is either finite or exactly the
positive-infinity sentinel (distinguishable from every numeric value). -/
theorem only_payback_nonfinite (f : RoiInputs) :
    (derivedJs f).annualHotWaterKwh.isFinite = true ∧
    (derivedJs f).annualHotWaterCost.isFinite = true ∧
    (derivedJs f).annualSavings.isFinite = true ∧
    (derivedJs f).netAnnualSavings.isFinite = true ∧
    (derivedJs f).upfront.isFinite = true ∧
    (derivedJs f).tenYearRoi.isFinite = true ∧
    (∀ p, p ∈ (derivedJs f).data → p.value.isFinite = true) ∧
    ((derivedJs f).paybackYears.isFinite = true ∨
      (derivedJs f).paybackYears = JsNum.posInf) := by
  rcases hH : parseNum f.householdSize with _ | vH <;>
    rcases hE : parseNum f.electricityPrice with _ | vE <;>
      rcases hK : parseNum f.kwhPerPerson with _ | vK <;>
        simp only [derivedJs, sanitizeHouseholdSize, sanitizeElectricityPrice,
          sanitizeKwhPerPerson, clampInt, clampMin, hH, hE, hK, Option.map_some',
          Option.map_none', JsNum.mul_fin, JsNum.sub_fin, JsNum.max_fin, JsNum.neg_fin,
          JsNum.lt_fin, JsNum.isFinite_fin, decide_eq_true_eq, List.mem_map,
          eq_self_iff_true, true_and]
  case some.some.some =>
    refine ⟨?_, ?_, ?_⟩
    · split
      · next hU =>
        rw [JsNum.div_fin _ _ (ne_of_gt hU)]
        rfl
      · rfl
    · intro p hp
      exact cashflowJs_value_fin _ _ _ p hp
    · split
      · next hS =>
        rw [JsNum.div_fin _ _ (ne_of_gt hS)]
        exact Or.inl rfl
      · exact Or.inr rfl
  all_goals
    refine ⟨?_, Or.inr trivial⟩
    rintro p ⟨a, -, rfl⟩
    rfl

/-- Witness for the cash-flow series theorem at Scenario A. -/
theorem cashflow_series_spec_witness :
    (derived scenarioA).data.length = scenarioA.horizonYears + 1 ∧
    (∀ i, ∀ hi : i < (derived scenarioA).data.length,
      ((derived scenarioA).data[i]).year = i) ∧
    (∀ h0 : 0 < (derived scenarioA).data.length,
      ((derived scenarioA).data[0]).value = jsRound (-(derived scenarioA).upfront)) ∧
    (∀ i, ∀ hi : i < (derived scenarioA).data.length,
      ((derived scenarioA).data[i]).value =
        jsRound (-(derived scenarioA).upfront
          + (i : ℚ) * (derived scenarioA).netAnnualSavings)) :=
  cashflow_series_spec scenarioA 3 (39 / 20) 1000 rfl rfl rfl

/-- Witness for the blur-commit theorem: a non-parsing raw value blurs
to the empty string, a numeric one to its clamped value. -/
theorem blur_commit_spec_witness :
    blurKwhPerPerson (RawValue.str ['x']) = RawValue.str [] ∧
    blurKwhPerPerson (RawValue.num 700) = RawValue.num (max 500 ((⌊(700 : ℚ)⌋ : ℤ) : ℚ)) :=
  ⟨((blur_commit_spec (RawValue.str ['x'])).1 rfl).2.2,
   ((blur_commit_spec (RawValue.num 700)).2 700 rfl).2.2⟩

/-- Witness for the guard-branch theorem on Scenario A with an empty
kwhPerPerson field. -/
theorem guard_degenerate_result_witness :
    (derived scenarioEmptyKwh).annualHotWaterKwh = 0 ∧
    (derived scenarioEmptyKwh).annualHotWaterCost = 0 ∧
    (derived scenarioEmptyKwh).annualSavings = 0 ∧
    (derived scenarioEmptyKwh).netAnnualSavings = 0 ∧
    (derived scenarioEmptyKwh).upfront = max ((sanitizeSystemCost scenarioEmptyKwh.systemCost).getD 0
      - (sanitizeGrant scenarioEmptyKwh.grant).getD 0) 0 ∧
    (derived scenarioEmptyKwh).paybackYears = none ∧
    (derived scenarioEmptyKwh).data.length = scenarioEmptyKwh.horizonYears + 1 ∧
    (∀ i, ∀ hi : i < (derived scenarioEmptyKwh).data.length,
      (derived scenarioEmptyKwh).data[i] = { year := i, value := 0 }) ∧
    (derived scenarioEmptyKwh).tenYearRoi = 0 :=
  guard_degenerate_result scenarioEmptyKwh (Or.inr (Or.inr rfl))

/-- Witness for the payback theorem at Scenario A. -/
theorem payback_spec_witness :
    (0 < (derived scenarioA).netAnnualSavings →
      (derived scenarioA).paybackYears =
        some ((derived scenarioA).upfront / (derived scenarioA).netAnnualSavings)) ∧
    ((derived scenarioA).netAnnualSavings ≤ 0 → (derived scenarioA).paybackYears = none) ∧
    ((derived scenarioA).paybackYears = none ↔ (derived scenarioA).netAnnualSavings ≤ 0) :=
  payback_spec scenarioA 3 (39 / 20) 1000 rfl rfl rfl

/-- Witness for the ten-year ROI theorem at Scenario A. -/
theorem tenYearRoi_spec_witness :
    (0 < (derived scenarioA).upfront →
      (derived scenarioA).tenYearRoi =
        ((derived scenarioA).netAnnualSavings * 10 - (derived scenarioA).upfront)
          / (derived scenarioA).upfront) ∧
    ((derived scenarioA).upfront = 0 → (derived scenarioA).tenYearRoi = 0) ∧
    ∀ hz : ℕ,
      (derived { scenarioA with horizonYears := hz }).tenYearRoi =
        (derived scenarioA).tenYearRoi :=
  tenYearRoi_spec scenarioA 3 (39 / 20) 1000 rfl rfl rfl

/-- Witness for the sanitization theorem at the committed numeric value
5/2. -/
theorem sanitize_spec_witness :
    parseNum RawValue.undef = none ∧
    parseNum (RawValue.str []) = none ∧
    (∀ s : List Char, s ≠ [] →
      parseNum (RawValue.str s) = jsToNumber (replaceFirstComma s)) ∧
    parseNum (RawValue.str ['1', ',', '9', '5']) = some (39 / 20) ∧
    (∀ w : RawValue, parseNum w = none →
      sanitizeHouseholdSize w = none ∧ sanitizeElectricityPrice w = none ∧
      sanitizeSystemCost w = none ∧ sanitizeGrant w = none ∧
      sanitizeKwhPerPerson w = none) ∧
    sanitizeHouseholdSize (RawValue.num (5 / 2)) = some (max 1 ((⌊(5 / 2 : ℚ)⌋ : ℤ) : ℚ)) ∧
    sanitizeSystemCost (RawValue.num (5 / 2)) = some (max 0 ((⌊(5 / 2 : ℚ)⌋ : ℤ) : ℚ)) ∧
    sanitizeGrant (RawValue.num (5 / 2)) = some (max 0 ((⌊(5 / 2 : ℚ)⌋ : ℤ) : ℚ)) ∧
    sanitizeKwhPerPerson (RawValue.num (5 / 2)) = some (max 500 ((⌊(5 / 2 : ℚ)⌋ : ℤ) : ℚ)) ∧
    sanitizeElectricityPrice (RawValue.num (5 / 2)) = some (max (1 / 10) (5 / 2)) :=
  sanitize_spec (RawValue.num (5 / 2)) (5 / 2) rfl

/-- Witness for the sanitized/legacy equivalence at in-range numeric
inputs. -/
theorem sanitized_legacy_equiv_witness :
    derived
      { householdSize := RawValue.num 3
        electricityPrice := RawValue.num 2
        systemCost := RawValue.num 29000
        grant := RawValue.num 0
        kwhPerPerson := RawValue.num 1000
        maintenance := 0
        savingsRatio := 33 / 50
        horizonYears := 15 } =
    legacyDerived
      { householdSize := 3
        electricityPrice := 2
        systemCost := 29000
        grant := 0
        maintenance := 0
        savingsRatio := 33 / 50
        kwhPerPerson := 1000
        horizonYears := 15 } :=
  sanitized_legacy_equiv 3 2 29000 0 1000 0 (33 / 50) 15 (by decide) (by decide)
    (by norm_num) (by decide) (by decide) (by decide) (by decide) (by decide) (by decide)
